import Mathlib

/-
Verification of the wordhex repository: three command-line scripts
(`seed-data-simple.py`, `seed-data.py`, `setup-schema.py`) that seed and
verify a hosted database over a REST API.

Shallow embedding: every HTTP request is modelled by an `Outcome` value
(the response status code, or the message of the raised transport
exception), so a whole run is a pure function of the sequence of
per-request outcomes.  `print` calls are modelled as a list of output
strings, one element per `print` call; the process exit code is modelled
explicitly (0 for a normal return from `main`, 1 for `sys.exit(1)`).
-/

namespace WordHex

/-- Result of one `requests.post` / `requests.get` call, as observed by the
scripts: either a response carrying a status code, or a raised exception
carrying the text `str(e)`. -/
inductive Outcome where
  | status (code : Nat)
  | exc (msg : String)
deriving DecidableEq

/-- Python left-justified format `f"{s:<w}"`: pad `s` on the right with
spaces up to width `w` (no change when `s` is already at least that wide). -/
def padRight (s : String) (w : Nat) : String :=
  s ++ String.mk (List.replicate (w - s.length) ' ')

/-- Mutable state of the `add_words` loop in both seeders: the two counters
and the console output produced so far. -/
structure SeedState where
  added : Nat
  failed : Nat
  output : List String
deriving DecidableEq

/-- Value of `add_words()` together with its observable console effects. -/
structure SeedResult where
  added : Nat
  failed : Nat
  output : List String
  result : Bool
deriving DecidableEq

/-- The `for word in SAMPLE_WORDS` loop: process the remaining records,
where record number `i` (0-based, over the whole list) gets outcome `o i`. -/
def processFrom {W : Type} (step : SeedState → W → Outcome → SeedState)
    (o : Nat → Outcome) : Nat → List W → SeedState → SeedState
  | _, [], st => st
  | i, w :: ws, st => processFrom step o (i + 1) ws (step st w (o i))

/-- Counter effect of one loop iteration, common to both seeders:
status 201 or 200 increments `added`, every other status and every
exception increments `failed`. -/
def countStep (p : Nat × Nat) (o : Outcome) : Nat × Nat :=
  match o with
  | .status c => if c = 201 ∨ c = 200 then (p.1 + 1, p.2) else (p.1, p.2 + 1)
  | .exc _ => (p.1, p.2 + 1)

/-- Counter effect of processing `n` records starting at request index `i`. -/
def countsFrom (o : Nat → Outcome) : Nat → Nat → Nat × Nat → Nat × Nat
  | _, 0, p => p
  | i, n + 1, p => countsFrom o (i + 1) n (countStep p (o i))

/-- The two counters of a loop state. -/
def counts (st : SeedState) : Nat × Nat := (st.added, st.failed)

namespace SeedSimple

/-- One record of `SAMPLE_WORDS` in `seed-data-simple.py`: minimal columns. -/
structure Word where
  value : String
  hint : String
deriving DecidableEq

/-- The 15 sample records of `seed-data-simple.py`. -/
def SAMPLE_WORDS : List Word := [
  ⟨"PYTHON", "A popular programming language or a large snake"⟩,
  ⟨"DATABASE", "Organized collection of structured data"⟩,
  ⟨"ALGORITHM", "Step-by-step procedure for solving a problem"⟩,
  ⟨"JAVASCRIPT", "Programming language for web browsers"⟩,
  ⟨"HEXAGON", "Six-sided polygon shape"⟩,
  ⟨"ENCRYPTION", "Process of encoding data for security"⟩,
  ⟨"VARIABLE", "Named storage location for data values"⟩,
  ⟨"LOCALHOST", "Default network name for your own computer"⟩,
  ⟨"DEBUGGING", "Process of finding and fixing code errors"⟩,
  ⟨"FUNCTION", "Reusable block of code that performs a task"⟩,
  ⟨"TYPESCRIPT", "JavaScript with static typing"⟩,
  ⟨"FIREWALL", "Network security system"⟩,
  ⟨"PROTOCOL", "Set of rules for communication"⟩,
  ⟨"COMPILER", "Program that converts code to machine language"⟩,
  ⟨"SUPABASE", "Open source Firebase alternative"⟩]

/-- Success line of `seed-data-simple.py`:
the string of `f"  [+] {value:<15} - {hint[:40]}"`. -/
def successLine (w : Word) : String :=
  "  [+] " ++ padRight w.value 15 ++ " - " ++ w.hint.take 40

/-- Failure line `f"  [!] {value:<15} - HTTP {status_code}"`
(shared verbatim by both seeders). -/
def httpLine (v : String) (c : Nat) : String :=
  "  [!] " ++ padRight v 15 ++ " - HTTP " ++ toString c

/-- Exception line `f"  [x] {value:<15} - Error: {str(e)[:30]}"`
(shared verbatim by both seeders). -/
def errLine (v : String) (e : String) : String :=
  "  [x] " ++ padRight v 15 ++ " - Error: " ++ e.take 30

/-- One iteration of the `add_words` loop of `seed-data-simple.py`:
status 201/200 prints the success line and bumps `added`; any other
status prints the HTTP line, prints the `(Already exists)` annotation when
the status is 409, and bumps `failed`; an exception prints the truncated
error line and bumps `failed`. -/
def seedStep (st : SeedState) (w : Word) (o : Outcome) : SeedState :=
  match o with
  | .status c =>
      if c = 201 ∨ c = 200 then
        { st with added := st.added + 1, output := st.output ++ [successLine w] }
      else if c = 409 then
        { st with failed := st.failed + 1,
                  output := st.output ++ [httpLine w.value c, "      (Already exists)"] }
      else
        { st with failed := st.failed + 1, output := st.output ++ [httpLine w.value c] }
  | .exc e =>
      { st with failed := st.failed + 1, output := st.output ++ [errLine w.value e] }

/-- The whole `for` loop of `add_words` in `seed-data-simple.py`, starting
from the initial counters and the opening `print`. -/
def seedRun (o : Nat → Outcome) : SeedState :=
  processFrom seedStep o 0 SAMPLE_WORDS
    ⟨0, 0, ["Adding sample words to database...\n"]⟩

/-- The function `add_words` of `seed-data-simple.py`: run the loop, print
the summary (and the `Skipped` line when `failed > 0`), return `added > 0`. -/
def add_words (o : Nat → Outcome) : SeedResult :=
  { added := (seedRun o).added,
    failed := (seedRun o).failed,
    output :=
      (seedRun o).output
        ++ ["\nAdded " ++ toString (seedRun o).added ++ " words successfully"]
        ++ (if (seedRun o).failed > 0 then
              ["Skipped " ++ toString (seedRun o).failed ++ " words"]
            else []),
    result := decide ((seedRun o).added > 0) }

/-- Parsed body of the verification GET in `seed-data-simple.py`: a stored
word row has a `value` column and possibly a `hint` column (read with
`words[0].get('hint', 'No hint')`). -/
structure Row where
  value : String
  hint : Option String
deriving DecidableEq

/-- What `verify()` observes from its single GET request: a raised
exception, a JSON body that is not a list, or a list of rows. -/
inductive Resp where
  | exc (msg : String)
  | nonList
  | list (rows : List Row)

/-- The `limit` query parameter of the GET issued by `verify()`
(`/rest/v1/words?limit=5`). -/
def verify_limit : Nat := 5

/-- The function `verify` of `seed-data-simple.py`: one bounded GET; a
non-empty list prints the count and a sample line and returns `True`;
an empty list or a non-list prints the no-words line and returns `False`;
an exception prints the could-not-verify line and returns `False`. -/
def verify : Resp → Bool × List String
  | .exc e =>
      (false, ["\nVerifying database...", "  [x] Could not verify: " ++ e])
  | .nonList =>
      (false, ["\nVerifying database...", "  [!] No words found in database"])
  | .list [] =>
      (false, ["\nVerifying database...", "  [!] No words found in database"])
  | .list (r :: rs) =>
      (true, ["\nVerifying database...",
              "  [+] Database contains " ++ toString (rs.length + 1) ++ " words",
              "  [+] Sample: " ++ r.value ++ " - " ++ r.hint.getD "No hint"])

/-- The function `main` of `seed-data-simple.py`.  `exc` is the exception,
if any, raised inside the top-level `try` block (the modelled bodies of
`add_words` and `verify` are total, so in the model such an exception can
only come from elsewhere, e.g. the I/O layer); `sys.exit(1)` is modelled
as exit code 1, falling off the end of `main` as exit code 0. -/
def main (exc : Option String) (o : Nat → Outcome) (v : Resp) :
    Nat × List String :=
  let header := [String.mk (List.replicate 70 '='),
                 "WordHex Database Seeding (Simple)",
                 String.mk (List.replicate 70 '=') ++ "\n"]
  match exc with
  | some e => (1, header ++ ["[x] Error: " ++ e])
  | none =>
      (0, header ++ (add_words o).output ++ (verify v).2
          ++ ["\n[+] Database seeding complete!",
              "[+] Your WordHex app is ready to use!"])

end SeedSimple

namespace SeedFull

/-- One record of `SAMPLE_WORDS` in `seed-data.py`: the extended shape with
`difficulty` and `category`. -/
structure Word where
  value : String
  hint : String
  difficulty : String
  category : String
deriving DecidableEq

/-- The 15 sample records of `seed-data.py`. -/
def SAMPLE_WORDS : List Word := [
  ⟨"PYTHON", "A popular programming language or a large snake", "easy", "programming"⟩,
  ⟨"DATABASE", "Organized collection of structured data", "medium", "technology"⟩,
  ⟨"ALGORITHM", "Step-by-step procedure for solving a problem", "hard", "computer-science"⟩,
  ⟨"JAVASCRIPT", "Programming language for web browsers", "medium", "programming"⟩,
  ⟨"HEXAGON", "Six-sided polygon shape", "easy", "geometry"⟩,
  ⟨"ENCRYPTION", "Process of encoding data for security", "hard", "security"⟩,
  ⟨"VARIABLE", "Named storage location for data values", "medium", "programming"⟩,
  ⟨"LOCALHOST", "Default network name for your own computer", "easy", "networking"⟩,
  ⟨"DEBUGGING", "Process of finding and fixing code errors", "hard", "programming"⟩,
  ⟨"FUNCTION", "Reusable block of code that performs a task", "medium", "programming"⟩,
  ⟨"TYPESCRIPT", "JavaScript with static typing", "medium", "programming"⟩,
  ⟨"FIREWALL", "Network security system", "medium", "security"⟩,
  ⟨"PROTOCOL", "Set of rules for communication", "hard", "networking"⟩,
  ⟨"COMPILER", "Program that converts code to machine language", "hard", "programming"⟩,
  ⟨"SUPABASE", "Open source Firebase alternative", "medium", "backend"⟩]

/-- Success line of `seed-data.py`:
the string of `f"  [+] {value:<15} ({difficulty:<6}) - {hint[:40]}"`. -/
def successLine (w : Word) : String :=
  "  [+] " ++ padRight w.value 15 ++ " (" ++ padRight w.difficulty 6 ++ ") - "
    ++ w.hint.take 40

/-- One iteration of the `add_words` loop of `seed-data.py`: as in the
simple seeder, but with the extended success line and no special handling
of status 409 (no `(Already exists)` annotation). -/
def seedStep (st : SeedState) (w : Word) (o : Outcome) : SeedState :=
  match o with
  | .status c =>
      if c = 201 ∨ c = 200 then
        { st with added := st.added + 1, output := st.output ++ [successLine w] }
      else
        { st with failed := st.failed + 1,
                  output := st.output ++ [SeedSimple.httpLine w.value c] }
  | .exc e =>
      { st with failed := st.failed + 1,
                output := st.output ++ [SeedSimple.errLine w.value e] }

/-- The whole `for` loop of `add_words` in `seed-data.py`. -/
def seedRun (o : Nat → Outcome) : SeedState :=
  processFrom seedStep o 0 SAMPLE_WORDS
    ⟨0, 0, ["Adding sample words to database...\n"]⟩

/-- The function `add_words` of `seed-data.py` (summary line
`Failed to add ... (may already exist)` instead of `Skipped ...`). -/
def add_words (o : Nat → Outcome) : SeedResult :=
  { added := (seedRun o).added,
    failed := (seedRun o).failed,
    output :=
      (seedRun o).output
        ++ ["\nAdded " ++ toString (seedRun o).added ++ " words successfully"]
        ++ (if (seedRun o).failed > 0 then
              ["Failed to add " ++ toString (seedRun o).failed
                 ++ " words (may already exist)"]
            else []),
    result := decide ((seedRun o).added > 0) }

/-- The function `main` of `seed-data.py`: no post-seed verification step. -/
def main (exc : Option String) (o : Nat → Outcome) : Nat × List String :=
  let header := [String.mk (List.replicate 70 '='),
                 "WordHex Database Seeding",
                 String.mk (List.replicate 70 '=') ++ "\n"]
  match exc with
  | some e => (1, header ++ ["[x] Error: " ++ e])
  | none =>
      (0, header ++ (add_words o).output
          ++ ["\n[+] Database seeding complete!",
              "[+] You can now start using the WordHex app!"])

end SeedFull

/-- Did the probe response carry the success status of the existence check
(`response.status_code == 200`)? -/
def isOk200 : Outcome → Bool
  | .status c => c == 200
  | .exc _ => false

namespace Schema

/-- The three table names checked by `verify_tables` in `setup-schema.py`. -/
def tables_to_check : List String := ["player_stats", "words", "match_history"]

/-- Line `f"✅ {table} exists"`. -/
def existsLine (t : String) : String := "✅ " ++ t ++ " exists"

/-- Line `f"❌ {table} not found (HTTP {status_code})"`. -/
def notFoundLine (t : String) (c : Nat) : String :=
  "❌ " ++ t ++ " not found (HTTP " ++ toString c ++ ")"

/-- Line `f"⚠️  Could not verify {table}: {str(e)}"`. -/
def couldNotVerifyLine (t : String) (e : String) : String :=
  "⚠️  Could not verify " ++ t ++ ": " ++ e

/-- One iteration of the `for table in tables_to_check` loop of
`verify_tables`: the accumulator holds `found_tables` and the output so
far.  Status 200 appends the table to `found_tables`; any other status
prints the not-found line; an exception prints the could-not-verify line. -/
def verifyStep (acc : List String × List String) (t : String) (o : Outcome) :
    List String × List String :=
  match o with
  | .status c =>
      if c = 200 then (acc.1 ++ [t], acc.2 ++ [existsLine t])
      else (acc.1, acc.2 ++ [notFoundLine t c])
  | .exc e => (acc.1, acc.2 ++ [couldNotVerifyLine t e])

/-- The whole probe loop: table number `i` (0-based) gets outcome `o i`. -/
def verifyFrom (o : Nat → Outcome) :
    Nat → List String → List String × List String → List String × List String
  | _, [], acc => acc
  | i, t :: ts, acc => verifyFrom o (i + 1) ts (verifyStep acc t (o i))

/-- `found_tables` and the per-table output of `verify_tables`. -/
def verifyRun (o : Nat → Outcome) : List String × List String :=
  verifyFrom o 0 tables_to_check
    ([], ["🔍 Attempting to verify existing tables...\n"])

/-- Value of `verify_tables()` together with its console output. -/
structure VerifyResult where
  found_tables : List String
  output : List String
  result : Bool
deriving DecidableEq

/-- The function `verify_tables` of `setup-schema.py`: run the probe loop,
print the summary branch, and return whether all checked tables were found. -/
def verify_tables (o : Nat → Outcome) : VerifyResult :=
  { found_tables := (verifyRun o).1,
    output :=
      (verifyRun o).2
        ++ (if (verifyRun o).1.length = tables_to_check.length then
              ["\n🎉 All tables exist! Database is ready to use.\n"]
            else if (verifyRun o).1.length > 0 then
              ["\n⚠️  Some tables exist (" ++ toString (verifyRun o).1.length
                 ++ "/" ++ toString tables_to_check.length ++ ")",
               "   Run the SQL manually to complete the setup.\n"]
            else
              ["\n❌ No tables found. Running the SQL setup is required.\n"]),
    result := decide ((verifyRun o).1.length = tables_to_check.length) }

/-- The `"-" * 70` separator. -/
def dash70 : String := String.mk (List.replicate 70 '-')

/-- The `"=" * 70` banner. -/
def eq70 : String := String.mk (List.replicate 70 '=')

/-- Manual-setup lines printed before the SQL text: banner, warning, and
numbered steps 1 to 6. -/
def stepsBeforeSql : List String :=
  [eq70,
   "🚀 WordHex Supabase Schema Setup",
   eq70,
   "\n⚠️  IMPORTANT: Direct SQL execution via API requires a Service Role key",
   "   (not the anonymous key). For security, we\u0027ll show you the manual steps:\n",
   "📋 MANUAL SETUP STEPS:",
   dash70,
   "1. Go to: https://app.supabase.com",
   "2. Login with your credentials",
   "3. Select your project \u0027ztrvimioqaphkbbvzupo\u0027",
   "4. Click \u0027SQL Editor\u0027 in the left sidebar",
   "5. Click \u0027New Query\u0027",
   "6. Paste the following SQL code:",
   dash70]

/-- Manual-setup lines printed after the SQL text: numbered steps 7 and 8
and the closing line. -/
def stepsAfterSql : List String :=
  [dash70,
   "7. Click the \u0027Run\u0027 button (or Ctrl+Enter)",
   "8. Check for success message: \u0027WordHex Supabase Schema Setup Complete!\u0027",
   "\n✅ Once complete, your database will be ready for the app!\n"]

/-- The function `execute_sql_via_dashboard` of `setup-schema.py`: print
the manual instructions with the SQL text verbatim in between. -/
def execute_sql_via_dashboard (sql : String) : List String :=
  stepsBeforeSql ++ [sql] ++ stepsAfterSql

/-- What `read_sql_file()` produces inside `main`'s `try`: the decoded file
text, a `FileNotFoundError`, or some other exception. -/
inductive ReadResult where
  | ok (sql : String)
  | fileNotFound
  | otherError (msg : String)

/-- Line `f"📄 Loaded SQL schema file ({len(sql)} bytes)"` — note that
Python `len` on the decoded text counts characters. -/
def loadedLine (sql : String) : String :=
  "📄 Loaded SQL schema file (" ++ toString sql.length ++ " bytes)\n"

/-- The function `main` of `setup-schema.py`: a missing SQL file exits 1
with its dedicated message, any other read exception exits 1 with the
generic message; otherwise print the loaded-file line, run `verify_tables`,
print the manual instructions exactly when not all tables were found, and
exit 0. -/
def main (r : ReadResult) (o : Nat → Outcome) : Nat × List String :=
  match r with
  | .fileNotFound =>
      (1, ["❌ Error: supabase_schema.sql not found",
           "   Make sure you\u0027re in the wordhex directory"])
  | .otherError e => (1, ["❌ Error: " ++ e])
  | .ok sql =>
      if (verify_tables o).result then
        (0, [loadedLine sql] ++ (verify_tables o).output)
      else
        (0, [loadedLine sql] ++ (verify_tables o).output
            ++ execute_sql_via_dashboard sql
            ++ ["\n📖 For a guided walkthrough, visit:",
                "   https://supabase.com/docs/guides/database/connecting-to-postgres\n"])

/-- Tables collected by the probe loop, abstracted from the fold: table
number `i` is kept exactly when its probe outcome is status 200. -/
def foundFrom (o : Nat → Outcome) : Nat → List String → List String
  | _, [] => []
  | i, t :: ts => (if isOk200 (o i) = true then [t] else []) ++ foundFrom o (i + 1) ts

end Schema

theorem counts_seedStep_simple (st : SeedState) (w : SeedSimple.Word) (o : Outcome) :
    counts (SeedSimple.seedStep st w o) = countStep (counts st) o := by
  cases o with
  | status c =>
      by_cases h : c = 201 ∨ c = 200
      · simp [SeedSimple.seedStep, countStep, counts, h]
      · by_cases h9 : c = 409 <;> simp [SeedSimple.seedStep, countStep, counts, h, h9]
  | exc e => rfl

theorem counts_seedStep_full (st : SeedState) (w : SeedFull.Word) (o : Outcome) :
    counts (SeedFull.seedStep st w o) = countStep (counts st) o := by
  cases o with
  | status c =>
      by_cases h : c = 201 ∨ c = 200 <;> simp [SeedFull.seedStep, countStep, counts, h]
  | exc e => rfl

theorem counts_processFrom {W : Type} (step : SeedState → W → Outcome → SeedState)
    (hstep : ∀ st w o, counts (step st w o) = countStep (counts st) o)
    (o : Nat → Outcome) :
    ∀ (ws : List W) (i : Nat) (st : SeedState),
      counts (processFrom step o i ws st) = countsFrom o i ws.length (counts st) := by
  intro ws
  induction ws with
  | nil => intro i st; rfl
  | cons w ws ih =>
      intro i st
      show counts (processFrom step o (i + 1) ws (step st w (o i)))
        = countsFrom o (i + 1) ws.length (countStep (counts st) (o i))
      rw [ih, hstep]

theorem countStep_sum (p : Nat × Nat) (o : Outcome) :
    (countStep p o).1 + (countStep p o).2 = p.1 + p.2 + 1 := by
  cases o with
  | status c => by_cases h : c = 201 ∨ c = 200 <;> simp [countStep, h] <;> omega
  | exc e => simp [countStep]; omega

theorem countsFrom_sum (o : Nat → Outcome) :
    ∀ (n i : Nat) (p : Nat × Nat),
      (countsFrom o i n p).1 + (countsFrom o i n p).2 = p.1 + p.2 + n := by
  intro n
  induction n with
  | zero => intro i p; rfl
  | succ n ih =>
      intro i p
      show (countsFrom o (i + 1) n (countStep p (o i))).1
          + (countsFrom o (i + 1) n (countStep p (o i))).2 = p.1 + p.2 + (n + 1)
      rw [ih]
      have := countStep_sum p (o i)
      omega

theorem seedRun_counts_simple (o : Nat → Outcome) :
    (SeedSimple.seedRun o).added = (countsFrom o 0 15 (0, 0)).1 ∧
    (SeedSimple.seedRun o).failed = (countsFrom o 0 15 (0, 0)).2 := by
  have h := counts_processFrom SeedSimple.seedStep counts_seedStep_simple o
    SeedSimple.SAMPLE_WORDS 0 ⟨0, 0, ["Adding sample words to database...\n"]⟩
  exact ⟨congrArg Prod.fst h, congrArg Prod.snd h⟩

theorem seedRun_counts_full (o : Nat → Outcome) :
    (SeedFull.seedRun o).added = (countsFrom o 0 15 (0, 0)).1 ∧
    (SeedFull.seedRun o).failed = (countsFrom o 0 15 (0, 0)).2 := by
  have h := counts_processFrom SeedFull.seedStep counts_seedStep_full o
    SeedFull.SAMPLE_WORDS 0 ⟨0, 0, ["Adding sample words to database...\n"]⟩
  exact ⟨congrArg Prod.fst h, congrArg Prod.snd h⟩

theorem verifyFrom_found (o : Nat → Outcome) :
    ∀ (ts : List String) (i : Nat) (acc : List String × List String),
      (Schema.verifyFrom o i ts acc).1 = acc.1 ++ Schema.foundFrom o i ts := by
  intro ts
  induction ts with
  | nil => intro i acc; simp [Schema.verifyFrom, Schema.foundFrom]
  | cons t ts ih =>
      intro i acc
      show (Schema.verifyFrom o (i + 1) ts (Schema.verifyStep acc t (o i))).1
        = acc.1 ++ Schema.foundFrom o i (t :: ts)
      rw [ih]
      cases h : o i with
      | status c =>
          by_cases hc : c = 200 <;>
            simp [Schema.verifyStep, Schema.foundFrom, h, isOk200, hc]
      | exc e => simp [Schema.verifyStep, Schema.foundFrom, h, isOk200]

theorem utf8Size_one_of_ascii {c : Char} (h : c.toNat ≤ 127) : c.utf8Size = 1 := by
  have hv : c.val ≤ UInt32.ofNatCore 0x7F (by decide) := by
    rw [UInt32.le_def, BitVec.le_def]
    exact h
  simp only [Char.utf8Size]
  rw [if_pos hv]

theorem utf8ByteSize_of_ascii : ∀ (s : String), (∀ c ∈ s.data, c.toNat ≤ 127) →
    s.utf8ByteSize = s.length := by
  intro s h
  cases s with
  | mk data =>
      show String.utf8ByteSize.go data = data.length
      induction data with
      | nil => rfl
      | cons c cs ih =>
          have hc := h c (by simp)
          show String.utf8ByteSize.go cs + c.utf8Size = cs.length + 1
          rw [utf8Size_one_of_ascii hc, ih (fun x hx => h x (by simp [hx]))]

/-- C1, counterexample: the claim asserts that in every seeder a POST
returning 409 makes the run append the `(Already exists)` annotation; in
the extended seeder (`seed-data.py`) a run in which every POST returns 409
counts all 15 records as failed yet never prints that annotation. -/
theorem C1_counterexample :
    (SeedFull.add_words (fun _ => .status 409)).failed = 15 ∧
    ¬ ("      (Already exists)" ∈ (SeedFull.add_words (fun _ => .status 409)).output) := by
  decide

/-- C1, amended: in both seeders, a per-record POST outcome of status 201
or 200 appends the success line, increments `added` by exactly 1 and
leaves `failed` unchanged; status 409 increments `failed` by 1, leaves
`added` unchanged and, in the basic seeder only, appends the
`(Already exists)` annotation after the HTTP line — the extended seeder
appends only the HTTP line. -/
theorem C1_amended_step_classification (st : SeedState)
    (w : SeedSimple.Word) (w2 : SeedFull.Word) :
    ((SeedSimple.seedStep st w (.status 201)).added = st.added + 1 ∧
     (SeedSimple.seedStep st w (.status 201)).failed = st.failed ∧
     (SeedSimple.seedStep st w (.status 201)).output
       = st.output ++ [SeedSimple.successLine w]) ∧
    ((SeedSimple.seedStep st w (.status 200)).added = st.added + 1 ∧
     (SeedSimple.seedStep st w (.status 200)).failed = st.failed ∧
     (SeedSimple.seedStep st w (.status 200)).output
       = st.output ++ [SeedSimple.successLine w]) ∧
    ((SeedSimple.seedStep st w (.status 409)).added = st.added ∧
     (SeedSimple.seedStep st w (.status 409)).failed = st.failed + 1 ∧
     (SeedSimple.seedStep st w (.status 409)).output
       = st.output ++ [SeedSimple.httpLine w.value 409, "      (Already exists)"]) ∧
    ((SeedFull.seedStep st w2 (.status 201)).added = st.added + 1 ∧
     (SeedFull.seedStep st w2 (.status 201)).failed = st.failed ∧
     (SeedFull.seedStep st w2 (.status 201)).output
       = st.output ++ [SeedFull.successLine w2]) ∧
    ((SeedFull.seedStep st w2 (.status 200)).added = st.added + 1 ∧
     (SeedFull.seedStep st w2 (.status 200)).failed = st.failed ∧
     (SeedFull.seedStep st w2 (.status 200)).output
       = st.output ++ [SeedFull.successLine w2]) ∧
    ((SeedFull.seedStep st w2 (.status 409)).added = st.added ∧
     (SeedFull.seedStep st w2 (.status 409)).failed = st.failed + 1 ∧
     (SeedFull.seedStep st w2 (.status 409)).output
       = st.output ++ [SeedSimple.httpLine w2.value 409]) :=
  ⟨⟨rfl, rfl, rfl⟩, ⟨rfl, rfl, rfl⟩, ⟨rfl, rfl, rfl⟩,
   ⟨rfl, rfl, rfl⟩, ⟨rfl, rfl, rfl⟩, ⟨rfl, rfl, rfl⟩⟩

/-- C2: a checked table lands in `found_tables` exactly when its probe GET
completed with the success status 200, and a probe that raises a transport
exception leaves `found_tables` untouched and appends exactly the
`Could not verify` line — the table is reported neither present nor
`not found`. -/
theorem C2_verify_tables_classification (o : Nat → Outcome) :
    (("player_stats" ∈ (Schema.verify_tables o).found_tables)
       ↔ isOk200 (o 0) = true) ∧
    (("words" ∈ (Schema.verify_tables o).found_tables)
       ↔ isOk200 (o 1) = true) ∧
    (("match_history" ∈ (Schema.verify_tables o).found_tables)
       ↔ isOk200 (o 2) = true) ∧
    (∀ (acc : List String × List String) (t e : String),
      Schema.verifyStep acc t (.exc e)
        = (acc.1, acc.2 ++ [Schema.couldNotVerifyLine t e])) := by
  have hf : (Schema.verify_tables o).found_tables
      = Schema.foundFrom o 0 Schema.tables_to_check := by
    show (Schema.verifyRun o).1 = _
    rw [Schema.verifyRun, verifyFrom_found]
    rfl
  have hexp : Schema.foundFrom o 0 Schema.tables_to_check
      = (if isOk200 (o 0) = true then ["player_stats"] else [])
        ++ ((if isOk200 (o 1) = true then ["words"] else [])
        ++ ((if isOk200 (o 2) = true then ["match_history"] else []) ++ [])) := rfl
  refine ⟨?_, ?_, ?_, fun acc t e => rfl⟩ <;>
    rw [hf, hexp] <;>
    cases h0 : isOk200 (o 0) <;> cases h1 : isOk200 (o 1) <;>
      cases h2 : isOk200 (o 2) <;> simp [h0, h1, h2]

/-- C3, counterexample: the claim asserts the two seeders differ only in
the record payloads; with every POST returning 409 the basic seeder prints
the `(Already exists)` annotation and later runs the post-seed verification
step, while the extended seeder on the same outcomes does neither. -/
theorem C3_counterexample :
    ("      (Already exists)" ∈ (SeedSimple.add_words (fun _ => .status 409)).output) ∧
    ("\nVerifying database..." ∈ (SeedSimple.main none (fun _ => .status 409) (.list [])).2) ∧
    ¬ ("      (Already exists)" ∈ (SeedFull.main none (fun _ => .status 409)).2) ∧
    ¬ ("\nVerifying database..." ∈ (SeedFull.main none (fun _ => .status 409)).2) := by
  decide

/-- C3, amended: for every sequence of per-request outcomes the two
seeders classify each record identically into the counters — `added`,
`failed` and the returned boolean coincide — and they differ in the record
payloads sent; but their console behaviour is not otherwise identical (the
extended seeder omits the 409 annotation and the post-seed verification
step, as the counterexample shows). -/
theorem C3_amended_counters_agree (o : Nat → Outcome) :
    (SeedSimple.add_words o).added = (SeedFull.add_words o).added ∧
    (SeedSimple.add_words o).failed = (SeedFull.add_words o).failed ∧
    (SeedSimple.add_words o).result = (SeedFull.add_words o).result := by
  have hA : (SeedSimple.seedRun o).added = (SeedFull.seedRun o).added := by
    rw [(seedRun_counts_simple o).1, (seedRun_counts_full o).1]
  have hF : (SeedSimple.seedRun o).failed = (SeedFull.seedRun o).failed := by
    rw [(seedRun_counts_simple o).2, (seedRun_counts_full o).2]
  refine ⟨hA, hF, ?_⟩
  show decide ((SeedSimple.seedRun o).added > 0)
      = decide ((SeedFull.seedRun o).added > 0)
  rw [hA]

set_option maxHeartbeats 1600000 in
/-- C4: when every POST raises a transport exception, the basic seeder
counts `added = 0` and `failed = 15`, its output reports every one of the
15 records with the truncated (30-character) error line, and the process
exits with code 0 (the per-record handler catches each exception, so no
exception reaches the top level). -/
theorem C4_all_timeouts (m : Nat → String) (v : SeedSimple.Resp) :
    (SeedSimple.add_words (fun i => .exc (m i))).added = 0 ∧
    (SeedSimple.add_words (fun i => .exc (m i))).failed = 15 ∧
    (SeedSimple.add_words (fun i => .exc (m i))).output =
      ["Adding sample words to database...\n",
       SeedSimple.errLine "PYTHON" (m 0),
       SeedSimple.errLine "DATABASE" (m 1),
       SeedSimple.errLine "ALGORITHM" (m 2),
       SeedSimple.errLine "JAVASCRIPT" (m 3),
       SeedSimple.errLine "HEXAGON" (m 4),
       SeedSimple.errLine "ENCRYPTION" (m 5),
       SeedSimple.errLine "VARIABLE" (m 6),
       SeedSimple.errLine "LOCALHOST" (m 7),
       SeedSimple.errLine "DEBUGGING" (m 8),
       SeedSimple.errLine "FUNCTION" (m 9),
       SeedSimple.errLine "TYPESCRIPT" (m 10),
       SeedSimple.errLine "FIREWALL" (m 11),
       SeedSimple.errLine "PROTOCOL" (m 12),
       SeedSimple.errLine "COMPILER" (m 13),
       SeedSimple.errLine "SUPABASE" (m 14),
       "\nAdded 0 words successfully", "Skipped 15 words"] ∧
    (SeedSimple.main none (fun i => .exc (m i)) v).1 = 0 := by
  refine ⟨rfl, ?_, ?_, rfl⟩
  · with_unfolding_all rfl
  · with_unfolding_all rfl

/-- C5: the schema script exits with code 0 whatever the probe outcomes;
when not all three checked tables are verified present its output is the
loaded-file line, the verifier output, then the manual-setup block — the
numbered steps with the SQL text verbatim between steps 6 and 7 — and the
walkthrough pointer; when all three tables are verified present the manual
instructions are not printed. -/
theorem C5_manual_instructions (sql : String) (o : Nat → Outcome) :
    (Schema.main (.ok sql) o).1 = 0 ∧
    ((Schema.verify_tables o).found_tables.length ≠ 3 →
      (Schema.main (.ok sql) o).2 =
        [Schema.loadedLine sql] ++ (Schema.verify_tables o).output
          ++ Schema.stepsBeforeSql ++ [sql] ++ Schema.stepsAfterSql
          ++ ["\n📖 For a guided walkthrough, visit:",
              "   https://supabase.com/docs/guides/database/connecting-to-postgres\n"]) ∧
    ((Schema.verify_tables o).found_tables.length = 3 →
      (Schema.main (.ok sql) o).2 =
        [Schema.loadedLine sql] ++ (Schema.verify_tables o).output) := by
  refine ⟨?_, ?_, ?_⟩
  · show (Schema.main (.ok sql) o).1 = 0
    simp only [Schema.main]
    split <;> rfl
  · intro h
    have hres : (Schema.verify_tables o).result = false := decide_eq_false h
    simp [Schema.main, hres, Schema.execute_sql_via_dashboard]
  · intro h
    have hres : (Schema.verify_tables o).result = true := decide_eq_true h
    simp [Schema.main, hres]

/-- C5, witness: with every probe timing out, 0 of 3 tables are found and
the schema script prints the manual block around the SQL text. -/
theorem C5_witness :
    (Schema.verify_tables (fun _ => Outcome.exc "timed out")).found_tables.length ≠ 3 ∧
    (Schema.main (.ok "CREATE TABLE words;") (fun _ => Outcome.exc "timed out")).2 =
      [Schema.loadedLine "CREATE TABLE words;"]
        ++ (Schema.verify_tables (fun _ => Outcome.exc "timed out")).output
        ++ Schema.stepsBeforeSql ++ ["CREATE TABLE words;"] ++ Schema.stepsAfterSql
        ++ ["\n📖 For a guided walkthrough, visit:",
            "   https://supabase.com/docs/guides/database/connecting-to-postgres\n"] :=
  ⟨by decide,
   (C5_manual_instructions "CREATE TABLE words;" (fun _ => Outcome.exc "timed out")).2.1
     (by decide)⟩

/-- C6, counterexample: the claim says the loaded-file line reports the
byte count of the SQL file; for a file whose text is the single character
é — two bytes in UTF-8 — the script reports 1, because Python `len` on the
decoded text counts characters, not bytes. -/
theorem C6_counterexample :
    Schema.loadedLine "é" = "📄 Loaded SQL schema file (1 bytes)\n" ∧
    "é".utf8ByteSize = 2 ∧
    Schema.loadedLine "é" ≠ "📄 Loaded SQL schema file (2 bytes)\n" ∧
    (Schema.main (.ok "é") (fun _ => Outcome.exc "x")).2.headD ""
      = "📄 Loaded SQL schema file (1 bytes)\n" := by
  decide

/-- C6, amended: the loaded-file line (the first line the schema script
prints on a successful read) reports the number of characters of the
decoded SQL text, which equals the file's byte count N exactly when every
character is ASCII (single-byte in UTF-8). -/
theorem C6_amended_char_count (sql : String) (o : Nat → Outcome) :
    (Schema.main (.ok sql) o).2.headD ""
      = "📄 Loaded SQL schema file (" ++ toString sql.length ++ " bytes)\n" ∧
    ((∀ c ∈ sql.data, c.toNat ≤ 127) → sql.utf8ByteSize = sql.length) := by
  constructor
  · simp only [Schema.main]
    split <;> rfl
  · exact utf8ByteSize_of_ascii sql

/-- C6, witness: an ASCII schema text, where the reported character count
does equal the UTF-8 byte count. -/
theorem C6_witness :
    (∀ c ∈ "SELECT 1;".data, c.toNat ≤ 127) ∧
    "SELECT 1;".utf8ByteSize = "SELECT 1;".length :=
  ⟨by decide,
   (C6_amended_char_count "SELECT 1;" (fun _ => Outcome.exc "x")).2 (by decide)⟩

/-- C7: each seeder's `add_words` returns `True` exactly when at least one
record was added; partial failure does not affect the boolean as long as
`added > 0`. -/
theorem C7_result_iff_added_pos (o : Nat → Outcome) :
    ((SeedSimple.add_words o).result = true ↔ 0 < (SeedSimple.add_words o).added) ∧
    ((SeedFull.add_words o).result = true ↔ 0 < (SeedFull.add_words o).added) :=
  ⟨decide_eq_true_iff, decide_eq_true_iff⟩

/-- C8: the basic seeder's post-seed verifier issues one GET bounded by
`limit = 5`; a body parsing as a non-empty list prints the count and the
first record's `value` and `hint` and returns `True`; an empty list or a
non-list prints the no-words report and returns `False`; a transport
exception prints the could-not-verify report, returns `False`, and `main`
still exits with code 0. -/
theorem C8_verify_classification :
    SeedSimple.verify_limit = 5 ∧
    (∀ e, SeedSimple.verify (.exc e)
      = (false, ["\nVerifying database...", "  [x] Could not verify: " ++ e])) ∧
    SeedSimple.verify .nonList
      = (false, ["\nVerifying database...", "  [!] No words found in database"]) ∧
    SeedSimple.verify (.list [])
      = (false, ["\nVerifying database...", "  [!] No words found in database"]) ∧
    (∀ (r : SeedSimple.Row) (rs : List SeedSimple.Row),
      SeedSimple.verify (.list (r :: rs))
        = (true, ["\nVerifying database...",
                  "  [+] Database contains " ++ toString (rs.length + 1) ++ " words",
                  "  [+] Sample: " ++ r.value ++ " - " ++ r.hint.getD "No hint"])) ∧
    (∀ (o : Nat → Outcome) (v : SeedSimple.Resp), (SeedSimple.main none o v).1 = 0) :=
  ⟨rfl, fun _ => rfl, rfl, rfl, fun _ _ => rfl, fun _ _ => rfl⟩

/-- C9: the schema script exits with code 1 on a missing SQL file (after
printing the dedicated message) and on any other top-level exception;
both seeders exit with code 1 when an exception reaches their top-level
handler; every normal completion — whatever the per-record or per-table
outcomes — exits with code 0. -/
theorem C9_exit_codes (e sql : String) (o : Nat → Outcome) (v : SeedSimple.Resp) :
    (Schema.main .fileNotFound o).1 = 1 ∧
    (Schema.main .fileNotFound o).2
      = ["❌ Error: supabase_schema.sql not found",
         "   Make sure you're in the wordhex directory"] ∧
    (Schema.main (.otherError e) o).1 = 1 ∧
    (Schema.main (.ok sql) o).1 = 0 ∧
    (SeedSimple.main (some e) o v).1 = 1 ∧
    (SeedSimple.main none o v).1 = 0 ∧
    (SeedFull.main (some e) o).1 = 1 ∧
    (SeedFull.main none o).1 = 0 := by
  refine ⟨rfl, rfl, rfl, ?_, rfl, rfl, rfl, rfl⟩
  simp only [Schema.main]
  split <;> rfl

/-- C10: in both seeders every sample record is processed exactly once and
increments exactly one of the two counters, so for every sequence of
per-request outcomes `added + failed` equals the sample-list length, 15;
the loop is total (every per-record exception is part of its `Outcome`),
so the seeding pass never raises. -/
theorem C10_counter_invariant (o : Nat → Outcome) :
    SeedSimple.SAMPLE_WORDS.length = 15 ∧
    SeedFull.SAMPLE_WORDS.length = 15 ∧
    (SeedSimple.add_words o).added + (SeedSimple.add_words o).failed = 15 ∧
    (SeedFull.add_words o).added + (SeedFull.add_words o).failed = 15 := by
  have hs : (countsFrom o 0 15 (0, 0)).1 + (countsFrom o 0 15 (0, 0)).2 = 15 := by
    have := countsFrom_sum o 15 0 (0, 0)
    simpa using this
  have hA := (seedRun_counts_simple o).1
  have hF := (seedRun_counts_simple o).2
  have hA2 := (seedRun_counts_full o).1
  have hF2 := (seedRun_counts_full o).2
  refine ⟨rfl, rfl, ?_, ?_⟩
  · show (SeedSimple.seedRun o).added + (SeedSimple.seedRun o).failed = 15
    omega
  · show (SeedFull.seedRun o).added + (SeedFull.seedRun o).failed = 15
    omega

end WordHex
